import Mathlib

/-! Gyro sampling and LED driving application.

A shallow embedding of `Core/Src/app.c` and `Core/Inc/app.h`.

The C globals become the fields of `Globals`; the two LED output levels and the
ordered log of every call made to a driver or HAL primitive are the rest of
`State`.  Each C function is a Lean function on `State`.  Values that the C code
obtains from its environment (the number returned by `Gyro_Get_Velocity`, the
level returned by `HAL_GPIO_ReadPin`) are arguments of the function that asks
for them.
-/

namespace GyroApp

/-! ## Types of app.h and of the absent HAL headers -/

/-- Rotation direction, the enum `GYRO_DIRECTION` of app.h; `CCW` is its zero value. -/
inductive GYRO_DIRECTION where
  | CCW
  | CW
  deriving DecidableEq, Repr

/-- Readiness flag, the enum `Data_Ready_t` of app.h; `READY` is its zero value. -/
inductive Data_Ready_t where
  | READY
  | NOT_READY
  deriving DecidableEq, Repr

/-- Modelled from the spec: the HAL enum `GPIO_PinState` (header absent), the two
levels of a digital pin; `GPIO_PIN_RESET` is its zero value. -/
inductive GPIO_PinState where
  | GPIO_PIN_RESET
  | GPIO_PIN_SET
  deriving DecidableEq, Repr

/-- The two interrupt sources app.c names. -/
inductive IRQn_Type where
  | EXTI0_IRQn
  | EXTI2_IRQn
  deriving DecidableEq, Repr

/-- The four pins app.h names (all on the port the header pairs them with). -/
inductive Pin where
  | USER_BUTTON_PIN
  | GYRO_DRDY_PIN
  | LED_RED_PIN
  | LED_GREEN_PIN
  deriving DecidableEq, Repr

/-- Modelled from the spec: the CMSIS status codes `osStatus_t` (header absent). -/
inductive osStatus_t where
  | osOK
  | osError
  | osErrorTimeout
  | osErrorResource
  | osErrorParameter
  | osErrorNoMemory
  | osErrorISR
  deriving DecidableEq, Repr

/-- One call from app.c into the HAL or the gyro driver, as recorded in the log. -/
inductive HalCall where
  | HAL_GPIO_WritePin (pin : Pin) (level : GPIO_PinState)
  | HAL_GPIO_ReadPin (pin : Pin)
  | HAL_NVIC_EnableIRQ (irq : IRQn_Type)
  | HAL_NVIC_DisableIRQ (irq : IRQn_Type)
  | HAL_GPIO_EXTI_CLEAR_FLAG (pin : Pin)
  | Gyro_Init
  | Gyro_Get_Velocity
  deriving DecidableEq, Repr

/-! ## State -/

/-- The four file-scope variables of app.c (lines 17-21). -/
structure Globals where
  USER_BUTTON_STATE : GPIO_PinState
  GYRO_DIR : GYRO_DIRECTION
  data_ready : Data_Ready_t
  old_data : Int
  deriving DecidableEq, Repr

/-- The globals, the level last written to each LED pin, and the log of calls
(oldest first). -/
structure State extends Globals where
  led_green : GPIO_PinState
  led_red : GPIO_PinState
  calls : List HalCall
  deriving DecidableEq, Repr

/-- Conversion of an integer to `int16_t` (two's complement wrap-around). -/
def int16_t (x : Int) : Int := (x + 32768) % 65536 - 32768

/-- Number of sensor reads (`Gyro_Get_Velocity` calls) recorded in a log. -/
def gyro_reads (log : List HalCall) : Nat := log.count HalCall.Gyro_Get_Velocity

/-- The pair (SIGNAL_A, SIGNAL_B): the levels on the green and the red LED. -/
def signals (s : State) : GPIO_PinState × GPIO_PinState := (s.led_green, s.led_red)

/-! ## HAL primitives -/

/-- Modelled from the spec: `write_pin(id, level)` of the absent HAL; the level of
an LED pin is kept, every write is logged. -/
def HAL_GPIO_WritePin (pin : Pin) (level : GPIO_PinState) (s : State) : State :=
  match pin with
  | Pin.LED_GREEN_PIN =>
      { s with led_green := level, calls := s.calls ++ [HalCall.HAL_GPIO_WritePin pin level] }
  | Pin.LED_RED_PIN =>
      { s with led_red := level, calls := s.calls ++ [HalCall.HAL_GPIO_WritePin pin level] }
  | _ => { s with calls := s.calls ++ [HalCall.HAL_GPIO_WritePin pin level] }

/-- Modelled from the spec: `read_pin(id) -> level` of the absent HAL; `level`
is what the pin holds, the read is logged. -/
def HAL_GPIO_ReadPin (pin : Pin) (level : GPIO_PinState) (s : State) : GPIO_PinState × State :=
  (level, { s with calls := s.calls ++ [HalCall.HAL_GPIO_ReadPin pin] })

/-- Modelled from the spec: `enable(source)` of the absent interrupt controller. -/
def HAL_NVIC_EnableIRQ (irq : IRQn_Type) (s : State) : State :=
  { s with calls := s.calls ++ [HalCall.HAL_NVIC_EnableIRQ irq] }

/-- Modelled from the spec: `disable(source)` of the absent interrupt controller. -/
def HAL_NVIC_DisableIRQ (irq : IRQn_Type) (s : State) : State :=
  { s with calls := s.calls ++ [HalCall.HAL_NVIC_DisableIRQ irq] }

/-- Modelled from the spec: `clear_pending(source)` of the absent HAL. -/
def HAL_GPIO_EXTI_CLEAR_FLAG (pin : Pin) (s : State) : State :=
  { s with calls := s.calls ++ [HalCall.HAL_GPIO_EXTI_CLEAR_FLAG pin] }

/-- Modelled from the spec: `init()` of the absent sensor driver. -/
def Gyro_Init (s : State) : State :=
  { s with calls := s.calls ++ [HalCall.Gyro_Init] }

/-- Modelled from the spec: `read_velocity() -> signed_integer` of the absent sensor
driver; `gyro` is the number the sensor returns, the read is logged. -/
def Gyro_Get_Velocity (gyro : Int) (s : State) : Int × State :=
  (gyro, { s with calls := s.calls ++ [HalCall.Gyro_Get_Velocity] })

/-! ## app.c -/

/-- Lines 174-177: `USER_BUTTON_STATE = HAL_GPIO_ReadPin(...)`. -/
def app_sample_user_button (level : GPIO_PinState) (s : State) : State :=
  let r := HAL_GPIO_ReadPin Pin.USER_BUTTON_PIN level s
  { r.2 with USER_BUTTON_STATE := r.1 }

/-- Lines 195-198 of `app_get_gyro_rate`: test the flag and load the local
`gyro_vel`, from `old_data` or (converted to `int16_t`) from the sensor. -/
def app_get_gyro_rate_load (gyro : Int) (s : State) : Int × State :=
  if s.data_ready = Data_Ready_t.NOT_READY then
    (s.old_data, s)
  else
    let r := Gyro_Get_Velocity gyro s
    (int16_t r.1, r.2)

/-- Line 201 of `app_get_gyro_rate`: `data_ready = NOT_READY`. -/
def app_get_gyro_rate_reset (s : State) : State :=
  { s with data_ready := Data_Ready_t.NOT_READY }

/-- Line 204 of `app_get_gyro_rate`: `old_data = gyro_vel`. -/
def app_get_gyro_rate_store (gyro_vel : Int) (s : State) : State :=
  { s with old_data := gyro_vel }

/-- Lines 207-210 of `app_get_gyro_rate`: the classification. -/
def app_get_gyro_rate_classify (gyro_vel : Int) (s : State) : State :=
  if gyro_vel > -5000 then
    { s with GYRO_DIR := GYRO_DIRECTION.CW }
  else
    { s with GYRO_DIR := GYRO_DIRECTION.CCW }

/-- Lines 191-211: the whole sampling step, its four statements in order. -/
def app_get_gyro_rate (gyro : Int) (s : State) : State :=
  let r := app_get_gyro_rate_load gyro s
  let s1 := app_get_gyro_rate_reset r.2
  let s2 := app_get_gyro_rate_store r.1 s1
  app_get_gyro_rate_classify r.1 s2

/-- Lines 224-238: drive the green LED, then the red LED. -/
def app_drive_led (s : State) : State :=
  let s1 :=
    if s.USER_BUTTON_STATE = GPIO_PinState.GPIO_PIN_SET ∨ s.GYRO_DIR = GYRO_DIRECTION.CCW then
      HAL_GPIO_WritePin Pin.LED_GREEN_PIN GPIO_PinState.GPIO_PIN_SET s
    else
      HAL_GPIO_WritePin Pin.LED_GREEN_PIN GPIO_PinState.GPIO_PIN_RESET s
  if s1.USER_BUTTON_STATE = GPIO_PinState.GPIO_PIN_SET ∧ s1.GYRO_DIR = GYRO_DIRECTION.CW then
    HAL_GPIO_WritePin Pin.LED_RED_PIN GPIO_PinState.GPIO_PIN_SET s1
  else
    HAL_GPIO_WritePin Pin.LED_RED_PIN GPIO_PinState.GPIO_PIN_RESET s1

/-- Lines 251-258: the button interrupt handler; `level` is the button pin's level. -/
def EXTI0_IRQHandler (level : GPIO_PinState) (s : State) : State :=
  let s1 := HAL_NVIC_DisableIRQ IRQn_Type.EXTI0_IRQn s
  let s2 := app_sample_user_button level s1
  let s3 := HAL_GPIO_EXTI_CLEAR_FLAG Pin.USER_BUTTON_PIN s2
  HAL_NVIC_EnableIRQ IRQn_Type.EXTI0_IRQn s3

/-- Lines 271-278: the data-ready interrupt handler. -/
def EXTI2_IRQHandler (s : State) : State :=
  let s1 := HAL_NVIC_DisableIRQ IRQn_Type.EXTI2_IRQn s
  let s2 := { s1 with data_ready := Data_Ready_t.READY }
  let s3 := HAL_GPIO_EXTI_CLEAR_FLAG Pin.GYRO_DRDY_PIN s2
  HAL_NVIC_EnableIRQ IRQn_Type.EXTI2_IRQn s3

/-- Lines 53-71: create and start the periodic timer; `created` tells whether
`osTimerNew` returned a handle, `status` is what `osTimerStart(timer_id, 100U)`
returned.  The result is `none` when the function spins in `while(1)`. -/
def osTimer_Init (created : Bool) (status : osStatus_t) (s : State) : Option State :=
  if created = false then none
  else if status ≠ osStatus_t.osOK then none
  else some s

/-- Lines 110-128: create the thread; `created` tells whether `osThreadNew`
returned a handle.  The result is `none` when the function spins in `while(1)`. -/
def osThread_Init (created : Bool) (s : State) : Option State :=
  if created = false then none else some s

/-- Lines 142-161; `LAB3_USE_TASK` is the build-time selector of app.h. -/
def app_init (LAB3_USE_TASK : Bool) (created : Bool) (status : osStatus_t) (s : State) :
    Option State :=
  let s1 := HAL_GPIO_WritePin Pin.LED_GREEN_PIN GPIO_PinState.GPIO_PIN_RESET s
  let s2 := HAL_GPIO_WritePin Pin.LED_RED_PIN GPIO_PinState.GPIO_PIN_RESET s1
  let s3 := Gyro_Init s2
  let s4 := HAL_NVIC_EnableIRQ IRQn_Type.EXTI0_IRQn s3
  let s5 := HAL_NVIC_EnableIRQ IRQn_Type.EXTI2_IRQn s4
  if LAB3_USE_TASK = false then osTimer_Init created status s5 else osThread_Init created s5

/-- The state the C start-up code leaves: the initialisers of lines 17-21 (zero
where there is none), both LED pins low, nothing called yet. -/
def power_on : State :=
  { USER_BUTTON_STATE := GPIO_PinState.GPIO_PIN_RESET
    GYRO_DIR := GYRO_DIRECTION.CCW
    data_ready := Data_Ready_t.READY
    old_data := 0
    led_green := GPIO_PinState.GPIO_PIN_RESET
    led_red := GPIO_PinState.GPIO_PIN_RESET
    calls := [] }

/-- The state in which the first sampling cycle or interrupt finds the program:
`power_on` after a successful `app_init`. -/
def boot : State :=
  { power_on with
    calls :=
      [ HalCall.HAL_GPIO_WritePin Pin.LED_GREEN_PIN GPIO_PinState.GPIO_PIN_RESET,
        HalCall.HAL_GPIO_WritePin Pin.LED_RED_PIN GPIO_PinState.GPIO_PIN_RESET,
        HalCall.Gyro_Init,
        HalCall.HAL_NVIC_EnableIRQ IRQn_Type.EXTI0_IRQn,
        HalCall.HAL_NVIC_EnableIRQ IRQn_Type.EXTI2_IRQn ] }

/-! ## Whole-operation steps -/

/-- One uninterrupted run of one of the four operations that touch the state. -/
inductive Op where
  | get_gyro_rate (gyro : Int)
  | drive_led
  | EXTI0 (level : GPIO_PinState)
  | EXTI2
  deriving DecidableEq, Repr

/-- The operation an `Op` names. -/
def Op.step : Op → State → State
  | Op.get_gyro_rate gyro, s => app_get_gyro_rate gyro s
  | Op.drive_led, s => app_drive_led s
  | Op.EXTI0 level, s => EXTI0_IRQHandler level s
  | Op.EXTI2, s => EXTI2_IRQHandler s

/-- Run a sequence of operations, first one first. -/
def run (ops : List Op) (s : State) : State := ops.foldl (fun t op => op.step t) s

/-- Whether an operation is a sampling step. -/
def Op.is_sample : Op → Bool
  | Op.get_gyro_rate _ => true
  | _ => false

/-! ## Preemption inside the sampling step -/

/-- The sampling step with the interrupt handler `isr` taken once, at statement
boundary `k`: 0 is before line 195, 1 between the load (lines 195-198) and line
201, 2 between lines 201 and 204, 3 between lines 204 and 207, 4 after line 210;
any other `k` means the handler is not taken. -/
def app_get_gyro_rate_preempted (k : Nat) (isr : State → State) (gyro : Int) (s : State) :
    State :=
  let s0 := if k = 0 then isr s else s
  let r := app_get_gyro_rate_load gyro s0
  let s1 := if k = 1 then isr r.2 else r.2
  let s2 := app_get_gyro_rate_reset s1
  let s2 := if k = 2 then isr s2 else s2
  let s3 := app_get_gyro_rate_store r.1 s2
  let s3 := if k = 3 then isr s3 else s3
  let s4 := app_get_gyro_rate_classify r.1 s3
  if k = 4 then isr s4 else s4

/-! ## The two scheduling modes -/

theorem int16_t_of_range (v : Int) (hlo : -32768 ≤ v) (hhi : v ≤ 32767) : int16_t v = v := by
  unfold int16_t
  omega

theorem app_get_gyro_rate_of_ready (gyro : Int) (s : State)
    (h : s.data_ready = Data_Ready_t.READY) :
    app_get_gyro_rate gyro s =
      { s with
        data_ready := Data_Ready_t.NOT_READY
        old_data := int16_t gyro
        GYRO_DIR := if int16_t gyro > -5000 then GYRO_DIRECTION.CW else GYRO_DIRECTION.CCW
        calls := s.calls ++ [HalCall.Gyro_Get_Velocity] } := by
  by_cases hv : int16_t gyro > -5000 <;>
    simp [app_get_gyro_rate, app_get_gyro_rate_load, app_get_gyro_rate_reset,
      app_get_gyro_rate_store, app_get_gyro_rate_classify, Gyro_Get_Velocity, h, hv]

theorem app_get_gyro_rate_of_not_ready (gyro : Int) (s : State)
    (h : s.data_ready = Data_Ready_t.NOT_READY) :
    app_get_gyro_rate gyro s =
      { s with
        GYRO_DIR := if s.old_data > -5000 then GYRO_DIRECTION.CW else GYRO_DIRECTION.CCW } := by
  obtain ⟨⟨b, d, r, o⟩, g, rd, c⟩ := s
  simp only at h
  subst h
  by_cases hv : o > -5000 <;>
    simp [app_get_gyro_rate, app_get_gyro_rate_load, app_get_gyro_rate_reset,
      app_get_gyro_rate_store, app_get_gyro_rate_classify, hv]

theorem EXTI2_IRQHandler_eq (s : State) :
    EXTI2_IRQHandler s =
      { s with
        data_ready := Data_Ready_t.READY
        calls := s.calls ++ [HalCall.HAL_NVIC_DisableIRQ IRQn_Type.EXTI2_IRQn,
          HalCall.HAL_GPIO_EXTI_CLEAR_FLAG Pin.GYRO_DRDY_PIN,
          HalCall.HAL_NVIC_EnableIRQ IRQn_Type.EXTI2_IRQn] } := by
  simp [EXTI2_IRQHandler, HAL_NVIC_DisableIRQ, HAL_GPIO_EXTI_CLEAR_FLAG, HAL_NVIC_EnableIRQ]

theorem EXTI0_IRQHandler_eq (level : GPIO_PinState) (s : State) :
    EXTI0_IRQHandler level s =
      { s with
        USER_BUTTON_STATE := level
        calls := s.calls ++ [HalCall.HAL_NVIC_DisableIRQ IRQn_Type.EXTI0_IRQn,
          HalCall.HAL_GPIO_ReadPin Pin.USER_BUTTON_PIN,
          HalCall.HAL_GPIO_EXTI_CLEAR_FLAG Pin.USER_BUTTON_PIN,
          HalCall.HAL_NVIC_EnableIRQ IRQn_Type.EXTI0_IRQn] } := by
  simp [EXTI0_IRQHandler, app_sample_user_button, HAL_GPIO_ReadPin, HAL_NVIC_DisableIRQ,
    HAL_GPIO_EXTI_CLEAR_FLAG, HAL_NVIC_EnableIRQ]

theorem EXTI2_IRQHandler_iterate (n : Nat) (s : State) :
    (Nat.iterate EXTI2_IRQHandler (n + 1) s).toGlobals =
        { s.toGlobals with data_ready := Data_Ready_t.READY } ∧
      (Nat.iterate EXTI2_IRQHandler (n + 1) s).led_green = s.led_green ∧
      (Nat.iterate EXTI2_IRQHandler (n + 1) s).led_red = s.led_red ∧
      gyro_reads (Nat.iterate EXTI2_IRQHandler (n + 1) s).calls = gyro_reads s.calls := by
  induction n with
  | zero => simp [EXTI2_IRQHandler_eq, gyro_reads]
  | succ k ih =>
    rw [Function.iterate_succ_apply']
    obtain ⟨h1, h2, h3, h4⟩ := ih
    rw [EXTI2_IRQHandler_eq]
    refine ⟨?_, ?_, ?_, ?_⟩
    · simp only [h1]
    · simpa using h2
    · simpa using h3
    · simpa [gyro_reads] using h4

theorem app_get_gyro_rate_data_ready (gyro : Int) (s : State) :
    (app_get_gyro_rate gyro s).data_ready = Data_Ready_t.NOT_READY := by
  cases h : s.data_ready
  · rw [app_get_gyro_rate_of_ready gyro s h]
  · rw [app_get_gyro_rate_of_not_ready gyro s h]
    exact h

theorem app_init_timer_mode : app_init false true osStatus_t.osOK power_on = some boot := by
  decide

theorem app_init_task_mode (status : osStatus_t) : app_init true true status power_on = some boot := by
  cases status <;> decide

theorem app_get_gyro_rate_preempted_not_taken (k : Nat) (hk : 5 ≤ k) (isr : State → State)
    (gyro : Int) (s : State) :
    app_get_gyro_rate_preempted k isr gyro s = app_get_gyro_rate gyro s := by
  have h0 : k ≠ 0 := by omega
  have h1 : k ≠ 1 := by omega
  have h2 : k ≠ 2 := by omega
  have h3 : k ≠ 3 := by omega
  have h4 : k ≠ 4 := by omega
  simp [app_get_gyro_rate_preempted, app_get_gyro_rate, h0, h1, h2, h3, h4]

theorem app_get_gyro_rate_preempted_before (isr : State → State) (gyro : Int) (s : State) :
    app_get_gyro_rate_preempted 0 isr gyro s = app_get_gyro_rate gyro (isr s) := by
  simp [app_get_gyro_rate_preempted, app_get_gyro_rate]

theorem app_get_gyro_rate_preempted_after (isr : State → State) (gyro : Int) (s : State) :
    app_get_gyro_rate_preempted 4 isr gyro s = isr (app_get_gyro_rate gyro s) := by
  simp [app_get_gyro_rate_preempted, app_get_gyro_rate]

/-- The consistency of direction and cached velocity. -/
theorem app_get_gyro_rate_consistent (gyro : Int) (s : State) :
    (app_get_gyro_rate gyro s).GYRO_DIR = GYRO_DIRECTION.CW ↔
      (app_get_gyro_rate gyro s).old_data > -5000 := by
  cases h : s.data_ready
  · rw [app_get_gyro_rate_of_ready gyro s h]
    by_cases hv : int16_t gyro > -5000 <;> simp [hv]
  · rw [app_get_gyro_rate_of_not_ready gyro s h]
    by_cases hv : s.old_data > -5000 <;> simp [hv]

theorem app_drive_led_toGlobals (s : State) : (app_drive_led s).toGlobals = s.toGlobals := by
  obtain ⟨⟨b, d, r, o⟩, g, rd, c⟩ := s
  cases b <;> cases d <;> simp [app_drive_led, HAL_GPIO_WritePin]

theorem Op.step_consistent (op : Op) (s : State)
    (h : op.is_sample = true ∨ (s.GYRO_DIR = GYRO_DIRECTION.CW ↔ s.old_data > -5000)) :
    (op.step s).GYRO_DIR = GYRO_DIRECTION.CW ↔ (op.step s).old_data > -5000 := by
  cases op with
  | get_gyro_rate gyro => exact app_get_gyro_rate_consistent gyro s
  | drive_led =>
    have hs : (s.GYRO_DIR = GYRO_DIRECTION.CW ↔ s.old_data > -5000) := by
      simpa [Op.is_sample] using h
    have hg := app_drive_led_toGlobals s
    have h1 : (app_drive_led s).GYRO_DIR = s.GYRO_DIR := congrArg Globals.GYRO_DIR hg
    have h2 : (app_drive_led s).old_data = s.old_data := congrArg Globals.old_data hg
    simp only [Op.step, h1, h2]
    exact hs
  | EXTI0 level =>
    have hs : (s.GYRO_DIR = GYRO_DIRECTION.CW ↔ s.old_data > -5000) := by
      simpa [Op.is_sample] using h
    simpa [Op.step, EXTI0_IRQHandler_eq] using hs
  | EXTI2 =>
    have hs : (s.GYRO_DIR = GYRO_DIRECTION.CW ↔ s.old_data > -5000) := by
      simpa [Op.is_sample] using h
    simpa [Op.step, EXTI2_IRQHandler_eq] using hs

theorem run_consistent (ops : List Op) (s : State)
    (h : (∃ op ∈ ops, op.is_sample = true) ∨
      (s.GYRO_DIR = GYRO_DIRECTION.CW ↔ s.old_data > -5000)) :
    (run ops s).GYRO_DIR = GYRO_DIRECTION.CW ↔ (run ops s).old_data > -5000 := by
  induction ops generalizing s with
  | nil =>
    rcases h with ⟨op, hop, _⟩ | h
    · simp at hop
    · simpa [run] using h
  | cons op rest ih =>
    have hrun : run (op :: rest) s = run rest (op.step s) := by simp [run]
    rw [hrun]
    apply ih
    rcases h with ⟨op1, hop1, hs⟩ | h
    · rcases List.mem_cons.mp hop1 with rfl | hmem
      · exact Or.inr (Op.step_consistent op1 s (Or.inl hs))
      · exact Or.inl ⟨op1, hmem, hs⟩
    · exact Or.inr (Op.step_consistent op s (Or.inr h))

theorem run_data_ready_of_no_sample (ops : List Op) (s : State)
    (hs : s.data_ready = Data_Ready_t.READY) (h : ∀ op ∈ ops, op.is_sample = false) :
    (run ops s).data_ready = Data_Ready_t.READY := by
  induction ops generalizing s with
  | nil => simpa [run] using hs
  | cons op rest ih =>
    have hrun : run (op :: rest) s = run rest (op.step s) := by simp [run]
    rw [hrun]
    apply ih
    · have hop := h op (List.mem_cons_self _ _)
      cases op with
      | get_gyro_rate gyro => simp [Op.is_sample] at hop
      | drive_led =>
        have hg := app_drive_led_toGlobals s
        have h1 : (app_drive_led s).data_ready = s.data_ready := congrArg Globals.data_ready hg
        simp only [Op.step, h1]
        exact hs
      | EXTI0 level => simpa [Op.step, EXTI0_IRQHandler_eq] using hs
      | EXTI2 => simp [Op.step, EXTI2_IRQHandler_eq]
    · intro op1 hop1
      exact h op1 (List.mem_cons_of_mem _ hop1)

/-! ### Interrupts and the callback on the observable state -/

/-- C1: when the readiness flag is READY and the sensor read returns a signed
16-bit velocity `v`, `app_get_gyro_rate` leaves `GYRO_DIR = CW` exactly when
`v > -5000` and `GYRO_DIR = CCW` otherwise; `v = -5000` gives CCW and
`v = -4999` gives CW. -/
theorem C1_direction_threshold (s : State) (v : Int)
    (hready : s.data_ready = Data_Ready_t.READY) (hlo : -32768 ≤ v) (hhi : v ≤ 32767) :
    ((app_get_gyro_rate v s).GYRO_DIR = GYRO_DIRECTION.CW ↔ v > -5000) ∧
    ((app_get_gyro_rate v s).GYRO_DIR = GYRO_DIRECTION.CCW ↔ ¬ v > -5000) ∧
    (app_get_gyro_rate (-5000) s).GYRO_DIR = GYRO_DIRECTION.CCW ∧
    (app_get_gyro_rate (-4999) s).GYRO_DIR = GYRO_DIRECTION.CW := by
  rw [app_get_gyro_rate_of_ready v s hready, app_get_gyro_rate_of_ready (-5000) s hready,
    app_get_gyro_rate_of_ready (-4999) s hready, int16_t_of_range v hlo hhi]
  refine ⟨?_, ?_, ?_, ?_⟩
  · by_cases h : v > -5000 <;> simp [h]
  · by_cases h : v > -5000 <;> simp [h]
  · simp [int16_t]
  · simp [int16_t]

/-- Witness of C1 at the boot state with the boundary velocity -5000. -/
theorem C1_direction_threshold_witness :
    boot.data_ready = Data_Ready_t.READY ∧ (-32768 : Int) ≤ -5000 ∧ (-5000 : Int) ≤ 32767 ∧
    (((app_get_gyro_rate (-5000) boot).GYRO_DIR = GYRO_DIRECTION.CW ↔ (-5000 : Int) > -5000) ∧
    ((app_get_gyro_rate (-5000) boot).GYRO_DIR = GYRO_DIRECTION.CCW ↔ ¬ (-5000 : Int) > -5000) ∧
    (app_get_gyro_rate (-5000) boot).GYRO_DIR = GYRO_DIRECTION.CCW ∧
    (app_get_gyro_rate (-4999) boot).GYRO_DIR = GYRO_DIRECTION.CW) :=
  ⟨rfl, by decide, by decide, C1_direction_threshold boot (-5000) rfl (by decide) (by decide)⟩

/-- C2: `app_drive_led` writes the green LED (SIGNAL_A) high exactly when the
button is pressed (`GPIO_PIN_SET`) or the direction is CCW, and the red LED
(SIGNAL_B) high exactly when the button is pressed and the direction is CW; the
four rows of the truth table follow; the step makes exactly these two pin
writes, green first, and changes no global. -/
theorem C2_drive_led_truth_table (s : State) :
    ((app_drive_led s).led_green = GPIO_PinState.GPIO_PIN_SET ↔
      (s.USER_BUTTON_STATE = GPIO_PinState.GPIO_PIN_SET ∨ s.GYRO_DIR = GYRO_DIRECTION.CCW)) ∧
    ((app_drive_led s).led_red = GPIO_PinState.GPIO_PIN_SET ↔
      (s.USER_BUTTON_STATE = GPIO_PinState.GPIO_PIN_SET ∧ s.GYRO_DIR = GYRO_DIRECTION.CW)) ∧
    signals (app_drive_led { s with USER_BUTTON_STATE := GPIO_PinState.GPIO_PIN_RESET,
                                    GYRO_DIR := GYRO_DIRECTION.CW }) =
      (GPIO_PinState.GPIO_PIN_RESET, GPIO_PinState.GPIO_PIN_RESET) ∧
    signals (app_drive_led { s with USER_BUTTON_STATE := GPIO_PinState.GPIO_PIN_RESET,
                                    GYRO_DIR := GYRO_DIRECTION.CCW }) =
      (GPIO_PinState.GPIO_PIN_SET, GPIO_PinState.GPIO_PIN_RESET) ∧
    signals (app_drive_led { s with USER_BUTTON_STATE := GPIO_PinState.GPIO_PIN_SET,
                                    GYRO_DIR := GYRO_DIRECTION.CW }) =
      (GPIO_PinState.GPIO_PIN_SET, GPIO_PinState.GPIO_PIN_SET) ∧
    signals (app_drive_led { s with USER_BUTTON_STATE := GPIO_PinState.GPIO_PIN_SET,
                                    GYRO_DIR := GYRO_DIRECTION.CCW }) =
      (GPIO_PinState.GPIO_PIN_SET, GPIO_PinState.GPIO_PIN_RESET) ∧
    (app_drive_led s).calls =
      s.calls ++ [HalCall.HAL_GPIO_WritePin Pin.LED_GREEN_PIN (app_drive_led s).led_green,
        HalCall.HAL_GPIO_WritePin Pin.LED_RED_PIN (app_drive_led s).led_red] ∧
    (app_drive_led s).toGlobals = s.toGlobals := by
  obtain ⟨⟨b, d, r, o⟩, g, rd, c⟩ := s
  cases b <;> cases d <;> simp [app_drive_led, HAL_GPIO_WritePin, signals]

/-- C3: whatever the prior state and whatever the sensor returns, after
`app_get_gyro_rate` the readiness flag `data_ready` is NOT_READY. -/
theorem C3_flag_reset (s : State) (gyro : Int) :
    (app_get_gyro_rate gyro s).data_ready = Data_Ready_t.NOT_READY :=
  app_get_gyro_rate_data_ready gyro s

/-- C4: in a state whose readiness flag is NOT_READY, `app_get_gyro_rate` makes
no sensor read (no call at all), leaves `old_data` as it was and sets `GYRO_DIR`
to the classification of the cached velocity; a second run changes nothing more,
so both runs give the same `old_data` and `GYRO_DIR`; a cached 100 stays 100
with direction CW both times. -/
theorem C4_reuse_idempotent (s : State) (g1 g2 : Int)
    (h : s.data_ready = Data_Ready_t.NOT_READY) :
    (app_get_gyro_rate g1 s).calls = s.calls ∧
    (app_get_gyro_rate g1 s).old_data = s.old_data ∧
    (app_get_gyro_rate g1 s).GYRO_DIR =
      (if s.old_data > -5000 then GYRO_DIRECTION.CW else GYRO_DIRECTION.CCW) ∧
    app_get_gyro_rate g2 (app_get_gyro_rate g1 s) = app_get_gyro_rate g1 s ∧
    (s.old_data = 100 →
      (app_get_gyro_rate g1 s).old_data = 100 ∧
      (app_get_gyro_rate g1 s).GYRO_DIR = GYRO_DIRECTION.CW ∧
      (app_get_gyro_rate g2 (app_get_gyro_rate g1 s)).old_data = 100 ∧
      (app_get_gyro_rate g2 (app_get_gyro_rate g1 s)).GYRO_DIR = GYRO_DIRECTION.CW) := by
  have h1 : (app_get_gyro_rate g1 s).data_ready = Data_Ready_t.NOT_READY :=
    app_get_gyro_rate_data_ready g1 s
  have h2 : app_get_gyro_rate g2 (app_get_gyro_rate g1 s) = app_get_gyro_rate g1 s := by
    rw [app_get_gyro_rate_of_not_ready g2 _ h1, app_get_gyro_rate_of_not_ready g1 s h]
  rw [h2]
  rw [app_get_gyro_rate_of_not_ready g1 s h]
  refine ⟨rfl, rfl, rfl, rfl, ?_⟩
  intro hc
  simp [hc]

/-- Witness of C4 at the state one fresh sample of 100 after boot leaves: the
flag is NOT_READY and the cached velocity is 100. -/
theorem C4_reuse_idempotent_witness :
    (app_get_gyro_rate 100 boot).data_ready = Data_Ready_t.NOT_READY ∧
    (app_get_gyro_rate 100 boot).old_data = 100 ∧
    (app_get_gyro_rate 7 (app_get_gyro_rate 100 boot)).calls = (app_get_gyro_rate 100 boot).calls ∧
    (app_get_gyro_rate 7 (app_get_gyro_rate 100 boot)).old_data = 100 ∧
    (app_get_gyro_rate 7 (app_get_gyro_rate 100 boot)).GYRO_DIR = GYRO_DIRECTION.CW ∧
    (app_get_gyro_rate 9 (app_get_gyro_rate 7 (app_get_gyro_rate 100 boot))).old_data = 100 ∧
    (app_get_gyro_rate 9 (app_get_gyro_rate 7 (app_get_gyro_rate 100 boot))).GYRO_DIR =
      GYRO_DIRECTION.CW := by
  have hflag : (app_get_gyro_rate 100 boot).data_ready = Data_Ready_t.NOT_READY := by decide
  have hold : (app_get_gyro_rate 100 boot).old_data = 100 := by decide
  have h := C4_reuse_idempotent (app_get_gyro_rate 100 boot) 7 9 hflag
  exact ⟨hflag, hold, h.1, (h.2.2.2.2 hold).1, (h.2.2.2.2 hold).2.1, (h.2.2.2.2 hold).2.2.1,
    (h.2.2.2.2 hold).2.2.2⟩

/-- C5: for every prior state and every signed 16-bit sensor value `v`, running
`EXTI2_IRQHandler` and then `app_get_gyro_rate` reads the sensor exactly once
(the only call the sampling step makes) and leaves `old_data = v`, `GYRO_DIR`
the classification of `v`, and `data_ready = NOT_READY`; for `v = -6000` the
direction is CCW. -/
theorem C5_fresh_sample (s : State) (v : Int) (hlo : -32768 ≤ v) (hhi : v ≤ 32767) :
    (app_get_gyro_rate v (EXTI2_IRQHandler s)).calls =
      (EXTI2_IRQHandler s).calls ++ [HalCall.Gyro_Get_Velocity] ∧
    gyro_reads (app_get_gyro_rate v (EXTI2_IRQHandler s)).calls = gyro_reads s.calls + 1 ∧
    (app_get_gyro_rate v (EXTI2_IRQHandler s)).old_data = v ∧
    (app_get_gyro_rate v (EXTI2_IRQHandler s)).GYRO_DIR =
      (if v > -5000 then GYRO_DIRECTION.CW else GYRO_DIRECTION.CCW) ∧
    (app_get_gyro_rate v (EXTI2_IRQHandler s)).data_ready = Data_Ready_t.NOT_READY ∧
    (app_get_gyro_rate (-6000) (EXTI2_IRQHandler s)).GYRO_DIR = GYRO_DIRECTION.CCW ∧
    (app_get_gyro_rate (-6000) (EXTI2_IRQHandler s)).old_data = -6000 ∧
    (app_get_gyro_rate (-6000) (EXTI2_IRQHandler s)).data_ready = Data_Ready_t.NOT_READY := by
  have hr : (EXTI2_IRQHandler s).data_ready = Data_Ready_t.READY := by
    rw [EXTI2_IRQHandler_eq]
  rw [app_get_gyro_rate_of_ready v _ hr, app_get_gyro_rate_of_ready (-6000) _ hr,
    int16_t_of_range v hlo hhi, EXTI2_IRQHandler_eq]
  simp [gyro_reads, int16_t]

/-- Witness of C5 at the boot state with the velocity -6000. -/
theorem C5_fresh_sample_witness :
    (-32768 : Int) ≤ -6000 ∧ (-6000 : Int) ≤ 32767 ∧
    gyro_reads (app_get_gyro_rate (-6000) (EXTI2_IRQHandler boot)).calls =
      gyro_reads boot.calls + 1 ∧
    (app_get_gyro_rate (-6000) (EXTI2_IRQHandler boot)).old_data = -6000 ∧
    (app_get_gyro_rate (-6000) (EXTI2_IRQHandler boot)).GYRO_DIR = GYRO_DIRECTION.CCW ∧
    (app_get_gyro_rate (-6000) (EXTI2_IRQHandler boot)).data_ready = Data_Ready_t.NOT_READY := by
  have h := C5_fresh_sample boot (-6000) (by decide) (by decide)
  exact ⟨by decide, by decide, h.2.1, h.2.2.1, h.2.2.2.2.2.1, h.2.2.2.2.1⟩

/-- C6: for `n ≥ 1`, running `EXTI2_IRQHandler` `n` times leaves the same
globals and LED levels as running it once, and running it twice the same as
once; none of these runs reads the sensor; the next `app_get_gyro_rate` makes
exactly one call, a sensor read, and ends in the same globals as after a single
edge; a further `app_get_gyro_rate` with no new edge makes no call. -/
theorem C6_edge_collapsing (s : State) (n : Nat) (hn : 1 ≤ n) (v w : Int) :
    (Nat.iterate EXTI2_IRQHandler n s).toGlobals = (EXTI2_IRQHandler s).toGlobals ∧
    signals (Nat.iterate EXTI2_IRQHandler n s) = signals (EXTI2_IRQHandler s) ∧
    (EXTI2_IRQHandler (EXTI2_IRQHandler s)).toGlobals = (EXTI2_IRQHandler s).toGlobals ∧
    gyro_reads (Nat.iterate EXTI2_IRQHandler n s).calls = gyro_reads s.calls ∧
    (app_get_gyro_rate v (Nat.iterate EXTI2_IRQHandler n s)).calls =
      (Nat.iterate EXTI2_IRQHandler n s).calls ++ [HalCall.Gyro_Get_Velocity] ∧
    (app_get_gyro_rate v (Nat.iterate EXTI2_IRQHandler n s)).toGlobals =
      (app_get_gyro_rate v (EXTI2_IRQHandler s)).toGlobals ∧
    (app_get_gyro_rate w (app_get_gyro_rate v (Nat.iterate EXTI2_IRQHandler n s))).calls =
      (app_get_gyro_rate v (Nat.iterate EXTI2_IRQHandler n s)).calls := by
  obtain ⟨k, rfl⟩ : ∃ k, n = k + 1 := ⟨n - 1, by omega⟩
  obtain ⟨h1, h2, h3, h4⟩ := EXTI2_IRQHandler_iterate k s
  have hr : (Nat.iterate EXTI2_IRQHandler (k + 1) s).data_ready = Data_Ready_t.READY := by
    have := congrArg Globals.data_ready h1
    simpa using this
  have hr1 : (EXTI2_IRQHandler s).data_ready = Data_Ready_t.READY := by
    rw [EXTI2_IRQHandler_eq]
  have hn2 : (app_get_gyro_rate v (Nat.iterate EXTI2_IRQHandler (k + 1) s)).data_ready =
      Data_Ready_t.NOT_READY := app_get_gyro_rate_data_ready v _
  refine ⟨?_, ?_, ?_, h4, ?_, ?_, ?_⟩
  · rw [h1, EXTI2_IRQHandler_eq]
  · unfold signals
    rw [h2, h3, EXTI2_IRQHandler_eq]
  · simp [EXTI2_IRQHandler_eq]
  · rw [app_get_gyro_rate_of_ready v _ hr]
  · rw [app_get_gyro_rate_of_ready v _ hr, app_get_gyro_rate_of_ready v _ hr1]
    simp only [h1]
    simp [EXTI2_IRQHandler_eq]
  · rw [app_get_gyro_rate_of_not_ready w _ hn2]

/-- Witness of C6: three data-ready edges after boot, then two sampling cycles. -/
theorem C6_edge_collapsing_witness :
    1 ≤ 3 ∧
    (Nat.iterate EXTI2_IRQHandler 3 boot).toGlobals = (EXTI2_IRQHandler boot).toGlobals ∧
    gyro_reads (app_get_gyro_rate 12 (Nat.iterate EXTI2_IRQHandler 3 boot)).calls = 1 ∧
    gyro_reads (app_get_gyro_rate 34
      (app_get_gyro_rate 12 (Nat.iterate EXTI2_IRQHandler 3 boot))).calls = 1 := by
  have h := C6_edge_collapsing boot 3 (by decide) 12 34
  refine ⟨by decide, h.1, ?_, ?_⟩
  · rw [h.2.2.2.2.1]
    decide
  · rw [h.2.2.2.2.2.2, h.2.2.2.2.1]
    decide

/-- C8: in a state whose readiness flag is NOT_READY, let `EXTI2_IRQHandler` be
taken inside `app_get_gyro_rate` after the flag was tested (lines 195-198) and
before line 201 writes it.  The handler does set READY, but the cycle ends with
the flag NOT_READY, having used the cached velocity and read no sensor; the
next cycle, with no further edge, again makes no call and keeps the cached
velocity.  Had the same handler run just before the cycle, the sensor would
have been read. -/
theorem C8_lost_sample_race (s : State) (v w : Int)
    (h : s.data_ready = Data_Ready_t.NOT_READY) :
    (EXTI2_IRQHandler (app_get_gyro_rate_load v s).2).data_ready = Data_Ready_t.READY ∧
    (app_get_gyro_rate_preempted 1 EXTI2_IRQHandler v s).data_ready = Data_Ready_t.NOT_READY ∧
    (app_get_gyro_rate_preempted 1 EXTI2_IRQHandler v s).calls = (EXTI2_IRQHandler s).calls ∧
    gyro_reads (app_get_gyro_rate_preempted 1 EXTI2_IRQHandler v s).calls = gyro_reads s.calls ∧
    (app_get_gyro_rate_preempted 1 EXTI2_IRQHandler v s).old_data = s.old_data ∧
    (app_get_gyro_rate_preempted 1 EXTI2_IRQHandler v s).GYRO_DIR =
      (if s.old_data > -5000 then GYRO_DIRECTION.CW else GYRO_DIRECTION.CCW) ∧
    (app_get_gyro_rate w (app_get_gyro_rate_preempted 1 EXTI2_IRQHandler v s)).calls =
      (app_get_gyro_rate_preempted 1 EXTI2_IRQHandler v s).calls ∧
    (app_get_gyro_rate w (app_get_gyro_rate_preempted 1 EXTI2_IRQHandler v s)).old_data =
      s.old_data ∧
    (app_get_gyro_rate_preempted 0 EXTI2_IRQHandler v s).calls =
      (EXTI2_IRQHandler s).calls ++ [HalCall.Gyro_Get_Velocity] ∧
    (app_get_gyro_rate_preempted 0 EXTI2_IRQHandler v s).old_data = int16_t v := by
  have hload : app_get_gyro_rate_load v s = (s.old_data, s) := by
    simp [app_get_gyro_rate_load, h]
  have hpre : app_get_gyro_rate_preempted 1 EXTI2_IRQHandler v s =
      { s with
        GYRO_DIR := if s.old_data > -5000 then GYRO_DIRECTION.CW else GYRO_DIRECTION.CCW
        calls := (EXTI2_IRQHandler s).calls } := by
    by_cases hv : s.old_data > -5000 <;>
      simp [app_get_gyro_rate_preempted, hload, EXTI2_IRQHandler_eq, app_get_gyro_rate_reset,
        app_get_gyro_rate_store, app_get_gyro_rate_classify, hv, h.symm]
  have hflag : (app_get_gyro_rate_preempted 1 EXTI2_IRQHandler v s).data_ready =
      Data_Ready_t.NOT_READY := by
    rw [hpre]
    exact h
  have hr : (EXTI2_IRQHandler s).data_ready = Data_Ready_t.READY := by
    rw [EXTI2_IRQHandler_eq]
  refine ⟨?_, hflag, ?_, ?_, ?_, ?_, ?_, ?_, ?_, ?_⟩
  · rw [hload, EXTI2_IRQHandler_eq]
  · rw [hpre]
  · rw [hpre, EXTI2_IRQHandler_eq]
    simp [gyro_reads]
  · rw [hpre]
  · rw [hpre]
  · rw [app_get_gyro_rate_of_not_ready w _ hflag]
  · rw [app_get_gyro_rate_of_not_ready w _ hflag, hpre]
  · rw [app_get_gyro_rate_preempted_before, app_get_gyro_rate_of_ready v _ hr]
  · rw [app_get_gyro_rate_preempted_before, app_get_gyro_rate_of_ready v _ hr]

/-- Witness of C8: after boot one cycle caches 100; a fresh sample of -6000 is
signalled inside the next cycle and is not read by it nor by the one after. -/
theorem C8_lost_sample_race_witness :
    (app_get_gyro_rate 100 boot).data_ready = Data_Ready_t.NOT_READY ∧
    (app_get_gyro_rate_preempted 1 EXTI2_IRQHandler (-6000)
      (app_get_gyro_rate 100 boot)).data_ready = Data_Ready_t.NOT_READY ∧
    (app_get_gyro_rate_preempted 1 EXTI2_IRQHandler (-6000)
      (app_get_gyro_rate 100 boot)).old_data = 100 ∧
    (app_get_gyro_rate (-6000) (app_get_gyro_rate_preempted 1 EXTI2_IRQHandler (-6000)
      (app_get_gyro_rate 100 boot))).old_data = 100 ∧
    gyro_reads (app_get_gyro_rate (-6000) (app_get_gyro_rate_preempted 1 EXTI2_IRQHandler (-6000)
      (app_get_gyro_rate 100 boot))).calls = 1 := by
  have hflag : (app_get_gyro_rate 100 boot).data_ready = Data_Ready_t.NOT_READY := by decide
  have hold : (app_get_gyro_rate 100 boot).old_data = 100 := by decide
  have h := C8_lost_sample_race (app_get_gyro_rate 100 boot) (-6000) (-6000) hflag
  refine ⟨hflag, h.2.1, ?_, ?_, ?_⟩
  · rw [h.2.2.2.2.1, hold]
  · rw [h.2.2.2.2.2.2.2.1, hold]
  · rw [h.2.2.2.2.2.2.1, h.2.2.2.1]
    decide

/-- C9: at boot the readiness flag is READY and the cached velocity is 0 (the
direction being the zero value CCW), and the flag stays READY through any
operations that are not sampling steps, whether or not `EXTI2_IRQHandler` is
among them; so the first `app_get_gyro_rate` makes exactly one call, the sensor
read, and the value read (as an `int16_t`), not the cached 0, becomes
`old_data` and decides `GYRO_DIR`: a first reading of -6000 gives CCW where the
cached 0 would have classified as CW. -/
theorem C9_boot_first_cycle_reads (ops : List Op) (v : Int)
    (hops : ∀ op ∈ ops, op.is_sample = false) :
    power_on.data_ready = Data_Ready_t.READY ∧
    boot.data_ready = Data_Ready_t.READY ∧
    boot.old_data = 0 ∧
    boot.GYRO_DIR = GYRO_DIRECTION.CCW ∧
    gyro_reads boot.calls = 0 ∧
    (app_get_gyro_rate v boot).calls = boot.calls ++ [HalCall.Gyro_Get_Velocity] ∧
    (app_get_gyro_rate v boot).old_data = int16_t v ∧
    (app_get_gyro_rate v boot).GYRO_DIR =
      (if int16_t v > -5000 then GYRO_DIRECTION.CW else GYRO_DIRECTION.CCW) ∧
    (run ops boot).data_ready = Data_Ready_t.READY ∧
    (app_get_gyro_rate v (run ops boot)).calls =
      (run ops boot).calls ++ [HalCall.Gyro_Get_Velocity] ∧
    (app_get_gyro_rate v (run ops boot)).old_data = int16_t v ∧
    (app_get_gyro_rate v (run ops boot)).GYRO_DIR =
      (if int16_t v > -5000 then GYRO_DIRECTION.CW else GYRO_DIRECTION.CCW) ∧
    (app_get_gyro_rate (-6000) boot).old_data = -6000 ∧
    (app_get_gyro_rate (-6000) boot).GYRO_DIR = GYRO_DIRECTION.CCW ∧
    (if boot.old_data > -5000 then GYRO_DIRECTION.CW else GYRO_DIRECTION.CCW) =
      GYRO_DIRECTION.CW := by
  have hb : boot.data_ready = Data_Ready_t.READY := rfl
  have hr := run_data_ready_of_no_sample ops boot hb hops
  rw [app_get_gyro_rate_of_ready v _ hr, app_get_gyro_rate_of_ready v _ hb]
  refine ⟨rfl, rfl, rfl, rfl, by decide, rfl, rfl, rfl, hr, rfl, rfl, rfl, by decide, by decide,
    by decide⟩

/-- Witness of C9: a button press and two LED refreshes precede the first
sampling cycle, no data-ready interrupt does. -/
theorem C9_boot_first_cycle_reads_witness :
    (∀ op ∈ [Op.EXTI0 GPIO_PinState.GPIO_PIN_SET, Op.drive_led, Op.drive_led],
      op.is_sample = false) ∧
    gyro_reads (app_get_gyro_rate (-6000) (run [Op.EXTI0 GPIO_PinState.GPIO_PIN_SET,
      Op.drive_led, Op.drive_led] boot)).calls = 1 ∧
    (app_get_gyro_rate (-6000) (run [Op.EXTI0 GPIO_PinState.GPIO_PIN_SET,
      Op.drive_led, Op.drive_led] boot)).old_data = -6000 := by
  have hops : ∀ op ∈ [Op.EXTI0 GPIO_PinState.GPIO_PIN_SET, Op.drive_led, Op.drive_led],
      op.is_sample = false := by decide
  have h := C9_boot_first_cycle_reads
    [Op.EXTI0 GPIO_PinState.GPIO_PIN_SET, Op.drive_led, Op.drive_led] (-6000) hops
  refine ⟨hops, ?_, ?_⟩
  · rw [h.2.2.2.2.2.2.2.2.2.1]
    decide
  · rw [h.2.2.2.2.2.2.2.2.2.2.1]
    decide

/-- C10: in every state reached from boot by a sequence of whole operations
(`app_get_gyro_rate` with any sensor value, `app_drive_led`, `EXTI0_IRQHandler`,
`EXTI2_IRQHandler`) that contains a sampling step, `GYRO_DIR = CW` exactly when
`old_data > -5000`; the two handlers and `app_drive_led` change neither
`GYRO_DIR` nor `old_data`; the boot state itself (CCW with `old_data = 0`) does
not satisfy the equivalence. -/
theorem C10_direction_consistent (ops : List Op) (h : ∃ op ∈ ops, op.is_sample = true) :
    ((run ops boot).GYRO_DIR = GYRO_DIRECTION.CW ↔ (run ops boot).old_data > -5000) ∧
    (∀ (s : State) (level : GPIO_PinState),
      (EXTI0_IRQHandler level s).GYRO_DIR = s.GYRO_DIR ∧
      (EXTI0_IRQHandler level s).old_data = s.old_data) ∧
    (∀ s : State,
      (EXTI2_IRQHandler s).GYRO_DIR = s.GYRO_DIR ∧ (EXTI2_IRQHandler s).old_data = s.old_data) ∧
    (∀ s : State,
      (app_drive_led s).GYRO_DIR = s.GYRO_DIR ∧ (app_drive_led s).old_data = s.old_data) ∧
    ¬ (boot.GYRO_DIR = GYRO_DIRECTION.CW ↔ boot.old_data > -5000) := by
  refine ⟨run_consistent ops boot (Or.inl h), ?_, ?_, ?_, by decide⟩
  · intro s level
    simp [EXTI0_IRQHandler_eq]
  · intro s
    simp [EXTI2_IRQHandler_eq]
  · intro s
    have hg := app_drive_led_toGlobals s
    exact ⟨congrArg Globals.GYRO_DIR hg, congrArg Globals.old_data hg⟩

/-- Witness of C10: a data-ready edge, a sampling cycle reading -5000, an LED
refresh, a button press and another data-ready edge. -/
theorem C10_direction_consistent_witness :
    (∃ op ∈ [Op.EXTI2, Op.get_gyro_rate (-5000), Op.drive_led,
      Op.EXTI0 GPIO_PinState.GPIO_PIN_SET, Op.EXTI2], op.is_sample = true) ∧
    ((run [Op.EXTI2, Op.get_gyro_rate (-5000), Op.drive_led,
      Op.EXTI0 GPIO_PinState.GPIO_PIN_SET, Op.EXTI2] boot).GYRO_DIR = GYRO_DIRECTION.CW ↔
     (run [Op.EXTI2, Op.get_gyro_rate (-5000), Op.drive_led,
      Op.EXTI0 GPIO_PinState.GPIO_PIN_SET, Op.EXTI2] boot).old_data > -5000) := by
  have hops : ∃ op ∈ [Op.EXTI2, Op.get_gyro_rate (-5000), Op.drive_led,
      Op.EXTI0 GPIO_PinState.GPIO_PIN_SET, Op.EXTI2], op.is_sample = true :=
    ⟨Op.get_gyro_rate (-5000), by simp, rfl⟩
  exact ⟨hops, (C10_direction_consistent _ hops).1⟩

end GyroApp
